import Mathlib

/-!
# Verification of the Whisper-Notepad-Simple audio pipeline

Shallow embedding of the audio capture / segmented-transcription pipeline of
`whisper_notepad_simple.py` (and, where a claim cites it, `v1/voice_notepad.py`):

* `RecordingThread.get_supported_sample_rate`  — sample-rate negotiation;
* `RecordingThread._save_current_chunk` and the input-stream callback — chunk
  buffering and flush;
* `RecordingThread.stop_recording`             — final waveform assembly;
* `TranscriptionThread._compress_audio`        — best-effort compression;
* `TranscriptionThread._transcribe_large_file` — segment plan and the
  sequential transcription loop;
* `TranscriptionThread.transcribe`             — the top-level gate.

External effects (device queries, the encoder binary, the remote API, the
filesystem) are passed in as explicit oracle values describing what each call
would return or whether it would raise; the control flow around them is
translated statement by statement from the Python source.
-/

namespace WhisperNotepad

/-! ## Sample-rate negotiation (`get_supported_sample_rate`, lines 80–107)

`sd.query_devices(device_id, 'input')` either raises (modelled `none`) or
returns a device-info mapping.  The Python code then tests
`device_info and 'default_samplerate' in device_info`; we model the mapping by
whether it is truthy and whether it carries a `default_samplerate` entry, the
entry's value already converted by `int(...)`.  `sd.check_input_settings`
succeeding for a rate is modelled by a predicate `accepts`; any exception it
raises makes the probe loop `continue`, so `accepts r = false` covers both
rejection and a raising probe. -/

/-- Outcome of `sd.query_devices(device_id, 'input')` when it does not raise:
whether the returned mapping is truthy, and the `default_samplerate` entry
(as an integer) when the key is present. -/
structure DeviceInfo where
  truthy : Bool
  defaultSamplerate : Option Int
deriving DecidableEq, Repr

/-- The list `common_rates = [48000, 44100, 16000, 8000]` from line 87. -/
def commonRates : List Int := [48000, 44100, 16000, 8000]

/-- Body of the `try:` block of `get_supported_sample_rate` (lines 83–104),
given the result of the device query (`none` = the query raised, propagating
to the outer handler) and the probe predicate. -/
def getSupportedSampleRateBody (query : Option DeviceInfo)
    (accepts : Int → Bool) : Except Unit Int :=
  match query with
  | none => .error ()
  | some info =>
    if info.truthy ∧ info.defaultSamplerate.isSome then
      .ok (info.defaultSamplerate.getD 0)
    else
      match commonRates.find? accepts with
      | some r => .ok r
      | none => .ok 8000

/-- `RecordingThread.get_supported_sample_rate` (lines 80–107): the `try:`
body with the outer `except` handler returning the fallback `16000`. -/
def getSupportedSampleRate (query : Option DeviceInfo)
    (accepts : Int → Bool) : Int :=
  match getSupportedSampleRateBody query accepts with
  | .ok r => r
  | .error () => 16000

/-! ## Compressor (`TranscriptionThread._compress_audio`, lines 304–352)

File sizes are rationals (bytes divided by `1024 * 1024`).  `sf.read` either
raises or returns a sample array and a rate; only the array's length and the
rate feed the bitrate computation.  `subprocess.run` raises iff the `ffmpeg`
binary is unavailable (no `check=True`, so a failing encode merely leaves the
output file missing or empty).  `int(...)` on a non-negative rational is the
floor. -/

/-- Python `int(...)` on a rational: truncation toward zero. -/
def pyInt (q : ℚ) : Int :=
  if 0 ≤ q then ⌊q⌋ else ⌈q⌉

/-- Oracle for one `_compress_audio` call: everything the external world
decides. -/
structure CompressEnv where
  /-- `os.path.getsize(audio_path) / (1024*1024)` in MB. -/
  srcSizeMB : ℚ
  /-- `sf.read(audio_path)`: `none` = raises; `some (n, sr)` = an array of
  `n` samples at rate `sr`. -/
  readResult : Option (Nat × Nat)
  /-- Whether `subprocess.run(['ffmpeg', ...])` returns (false = the binary is
  missing and the call raises `FileNotFoundError`). -/
  encoderRuns : Bool
  /-- Whether the output file exists after the (attempted) encode. -/
  outExists : Bool
  /-- `os.path.getsize(compressed_path)` in bytes (0 when the encode failed). -/
  outSizeBytes : Nat
deriving DecidableEq, Repr

/-- Result of `_compress_audio`: which path is returned, and the
`(bitrate kbps, channel count)` arguments placed in the `ffmpeg` command when
control reaches its construction (lines 332–337). -/
structure CompressOutcome where
  usedOriginal : Bool
  invoked : Option (Int × Nat)
deriving DecidableEq, Repr

/-- Body of the `try:` block of `_compress_audio` (lines 307–348).  An
`.error` is any exception inside the block: a raising `sf.read`, the
`ZeroDivisionError` when `duration` is zero, or a raising `subprocess.run`. -/
def compressAudioBody (env : CompressEnv) (targetSizeMB : ℚ) :
    Except (Option (Int × Nat)) CompressOutcome :=
  if env.srcSizeMB ≤ targetSizeMB then
    .ok { usedOriginal := true, invoked := none }
  else
    match env.readResult with
    | none => .error none
    | some (n, sr) =>
      let duration : ℚ := (n : ℚ) / (sr : ℚ)
      if duration = 0 then .error none
      else
        let targetBitrate₀ : Int := pyInt ((targetSizeMB * 8 * 1024) / duration)
        let targetBitrate : Int := max 32 (min 128 targetBitrate₀)
        let args : Option (Int × Nat) := some (targetBitrate, 1)
        if env.encoderRuns then
          if env.outExists ∧ 0 < env.outSizeBytes then
            .ok { usedOriginal := false, invoked := args }
          else
            .ok { usedOriginal := true, invoked := args }
        else .error args

/-- `TranscriptionThread._compress_audio` (lines 304–352): the body with the
`except` handler, which reports the failure on the progress channel and
returns the original path. -/
def compressAudio (env : CompressEnv) (targetSizeMB : ℚ) : CompressOutcome :=
  match compressAudioBody env targetSizeMB with
  | .ok r => r
  | .error args => { usedOriginal := true, invoked := args }

/-! ## Segment plan for large files (`_transcribe_large_file`, lines 354–423)

`sf.read` of the final waveform yields the sample array `data` (a mono
recording reads back as a 1-D array; the slicing below only looks at the first
axis, so rows of a 2-D array slice the same way).  Lines 362–369:
`chunk_duration = 5 * 60`, `chunk_size = int(chunk_duration * sample_rate)`,
`num_chunks = (total_samples + chunk_size - 1) // chunk_size`, and segment `i`
is `data[i*chunk_size : min((i+1)*chunk_size, total_samples)]`. -/

/-- `chunk_size = int(5 * 60 * sample_rate)` (lines 364–365); `sample_rate` is
an integer, so `int(...)` is exact. -/
def chunkSizeSamples (sampleRate : Nat) : Nat := 5 * 60 * sampleRate

/-- `num_chunks = (total_samples + chunk_size - 1) // chunk_size` (line 369). -/
def numChunks (totalSamples chunkSize : Nat) : Nat :=
  (totalSamples + chunkSize - 1) / chunkSize

/-- The segment plan of `_transcribe_large_file` (lines 374–380): segment `i`
is the slice `data[i*chunk_size : min((i+1)*chunk_size, total_samples)]`.
`data.drop (i*cs) |>.take cs` is exactly that slice. -/
def segmentPlan (data : List α) (chunkSize : Nat) : List (List α) :=
  (List.range (numChunks data.length chunkSize)).map fun i =>
    ((data.drop (i * chunkSize)).take chunkSize)

/-! ## Sequential transcription loop (lines 372–419)

Each iteration writes segment `i`, compresses it, issues the API request and
reads `response.text`.  The API call (and the attribute access on its reply)
is a single oracle per segment: `.ok t` = a reply whose `text` is `t`
(possibly empty), `.raise` = any exception (network failure, malformed reply
object).  The loop body runs strictly sequentially: the request for segment
`i+1` is only reached after the reply for segment `i` has been stored. -/

/-- Outcome of `openai.audio.transcriptions.create(...)` followed by
`response.text` for one segment. -/
inductive ReplyOutcome where
  | ok (t : String)
  | raise
deriving DecidableEq, Repr

/-- One entry of the request/response trace of the loop. -/
inductive ApiEvent where
  | request (i : Nat)
  | response (i : Nat) (t : String)
deriving DecidableEq, Repr

/-- Result of `_transcribe_large_file`: the trace of API events, whether the
`except` handler emitted an error, and the returned string (the joined
transcript on success, `""` after the handler, line 423). -/
structure LargeFileResult where
  events : List ApiEvent
  errorEmitted : Bool
  text : String
deriving DecidableEq, Repr

/-- The `for i in range(num_chunks)` loop of `_transcribe_large_file`
(lines 374–419): the first argument counts the iterations still to run
(`num_chunks - i`), the second is the current segment index `i`, then the
events and the `all_transcriptions` accumulated so far.  After the last
iteration, `" ".join(all_transcriptions)` (line 417).  A raising iteration
escapes to the `except` handler (lines 421–423), which emits the error and
makes the function return `""`. -/
def largeFileGo (reply : Nat → ReplyOutcome) :
    Nat → Nat → List ApiEvent → List String → LargeFileResult
  | 0, _, evs, txts =>
    { events := evs, errorEmitted := false,
      text := String.intercalate " " txts }
  | k + 1, i, evs, txts =>
    match reply i with
    | .raise =>
      { events := evs ++ [.request i], errorEmitted := true, text := "" }
    | .ok t =>
      largeFileGo reply k (i + 1)
        (evs ++ [.request i, .response i t]) (txts ++ [t])

/-- `_transcribe_large_file` restricted to what the claims observe: the trace,
the error flag and the returned text, for a plan of `n` segments. -/
def transcribeLargeFile (reply : Nat → ReplyOutcome) (n : Nat) :
    LargeFileResult :=
  largeFileGo reply n 0 [] []

/-! ## numpy arrays and soundfile, as the recording path uses them

The recording path manipulates numpy arrays of two dimensionalities: the
`(frames, channels)` 2-D batches delivered by the input-stream callback and
the arrays returned by `sf.read`.  `soundfile.read` with its default
`always_2d=False` returns a **1-D** array for a one-channel file and a 2-D
array otherwise; `soundfile.write` takes either and derives the channel count
from the shape.  `np.concatenate` (axis 0) requires all inputs to have the
same number of dimensions and raises `ValueError` otherwise; in every use in
this program the rows of a 2-D operand all have width equal to the channel
count, so the remaining shape check always passes and is not modelled. -/

/-- A numpy array as used here: 1-D, or 2-D with shape `(rows.length, width)`. -/
inductive NpArr where
  | one (xs : List ℚ)
  | two (rows : List (List ℚ))
deriving DecidableEq, Repr

/-- Python `len(...)` of an array: the extent of the first axis. -/
def npLen : NpArr → Nat
  | .one xs => xs.length
  | .two rows => rows.length

/-- `np.concatenate((a, b))` along axis 0: defined only when the operands have
the same number of dimensions (otherwise `ValueError`). -/
def npConcat2 : NpArr → NpArr → Option NpArr
  | .one xs, .one ys => some (.one (xs ++ ys))
  | .two xs, .two ys => some (.two (xs ++ ys))
  | _, _ => none

/-- `np.zeros((n, c))`: a 2-D block of zero samples. -/
def npZeros2 (n c : Nat) : NpArr :=
  .two (List.replicate n (List.replicate c 0))

/-- A WAV file on disk: its channel count and its frames (one row of
`channels` samples per frame). -/
structure WavFile where
  channels : Nat
  frames : List (List ℚ)
deriving DecidableEq, Repr

/-- `sf.write(path, data, sr)`: a 1-D array writes a one-channel file, a 2-D
array writes one file frame per row (channel count = row width). -/
def sfWriteArr : NpArr → WavFile
  | .one xs => ⟨1, xs.map fun x => [x]⟩
  | .two rows => ⟨(rows.headD []).length, rows⟩

/-- `sf.read(path)` of an existing file (default `always_2d=False`): a
one-channel file reads back as a 1-D array, others as 2-D. -/
def sfReadArr (f : WavFile) : NpArr :=
  if f.channels = 1 then .one (f.frames.map fun r => r.headD 0) else .two f.frames

/-- `os.path.getsize(...) / (1024*1024)` for a WAV file as `soundfile` writes
it with its defaults (PCM_16 subtype: a 44-byte header plus 2 bytes per
sample per channel). -/
def wavFileSizeMB (f : WavFile) : ℚ :=
  ((44 + 2 * f.channels * f.frames.length : Nat) : ℚ) / (1024 * 1024)

/-! ## Recording state and chunk flush (`RecordingThread`, lines 59–236)

The state carries exactly the fields the claims observe.  `chunkFiles` mirrors
`self.chunk_files`: a list of file handles in flush order, where `none` marks
a path whose file has been deleted (reading it raises).  `errors` is the
sequence of messages emitted on the `error` signal; `console` the `print`ed
diagnostics (not user-visible signals).  Writes to disk are fallible; a
`writeOk` oracle states whether the `try:` body of `_save_current_chunk`
(concatenate + `sf.write`, lines 220–234) completes. -/

structure RecState where
  sampleRate : Nat
  channels : Nat
  /-- Whether `self.stream` has been assigned (`hasattr(self, 'stream')`). -/
  hasStream : Bool
  recording : Bool
  paused : Bool
  /-- `self.current_chunk`: the in-memory accumulator, a list of 2-D batches. -/
  currentChunk : List (List (List ℚ))
  /-- `self.chunk_files` (`none` = the file at that path has been deleted). -/
  chunkFiles : List (Option WavFile)
  errors : List String
  console : List String
deriving Repr

/-- `RecordingThread._save_current_chunk` (lines 215–236): nothing to do on an
empty accumulator; on success append the written chunk file and clear the
accumulator; on any exception in the `try:` body, `print` the failure and
leave everything else unchanged (the accumulator is not cleared). -/
def saveCurrentChunk (writeOk : Bool) (st : RecState) : RecState :=
  if st.currentChunk = [] then st
  else if writeOk then
    { st with
      chunkFiles := st.chunkFiles ++ [some (sfWriteArr (.two st.currentChunk.flatten))],
      currentChunk := [] }
  else
    { st with console := st.console ++ ["Error saving chunk"] }

/-- The input-stream callback (lines 119–132) on one incoming batch of frames
(shape `(batch.length, channels)`): append when `recording and not paused`,
then flush once `len(current_chunk) * frames / sample_rate` reaches 60 s. -/
def audioCallback (writeOk : Bool) (batch : List (List ℚ)) (st : RecState) :
    RecState :=
  if st.recording ∧ ¬st.paused then
    let st' := { st with currentChunk := st.currentChunk ++ [batch] }
    let chunkDuration : ℚ :=
      ((st'.currentChunk.length * batch.length : Nat) : ℚ) / (st.sampleRate : ℚ)
    if 60 ≤ chunkDuration then saveCurrentChunk writeOk st' else st'
  else st

/-- An event during an active session: a delivered frame batch (with the fate
of a flush write, if one happens), or a pause/resume control call. -/
inductive RecEvent where
  | frames (batch : List (List ℚ)) (writeOk : Bool)
  | pause
  | resume

/-- One step of the session: the callback for a batch (lines 119–132), or
`pause_recording` / `resume_recording` (lines 149–155). -/
def stepRec (st : RecState) : RecEvent → RecState
  | .frames batch writeOk => audioCallback writeOk batch st
  | .pause => { st with paused := true }
  | .resume => { st with paused := false }

/-- Run a sequence of session events. -/
def runRec (st : RecState) : List RecEvent → RecState
  | [] => st
  | e :: es => runRec (stepRec st e) es

/-- The frames of one event that the session captures: the batch when it is
appended (recording and not paused), nothing otherwise. -/
def capturedStep (st : RecState) : RecEvent → List (List (List ℚ))
  | .frames batch _ => if st.recording ∧ ¬st.paused then [batch] else []
  | _ => []

/-- All batches captured along a run, in arrival order. -/
def capturedRun (st : RecState) : List RecEvent → List (List (List ℚ))
  | [] => []
  | e :: es => capturedStep st e ++ capturedRun (stepRec st e) es

/-- The frames the session currently holds durably or in memory: frames of the
flushed chunk files in sequence order, then the trailing accumulator. -/
def storedRows (st : RecState) : List (List ℚ) :=
  (st.chunkFiles.map fun f => ((f.map WavFile.frames).getD [])).flatten
    ++ st.currentChunk.flatten

/-! ## `stop_recording` (lines 157–213)

The stream `stop()`/`close()` calls are device-boundary operations (spec §6
treats the stream as an opaque external interface); they are modelled as
returning normally.  Everything from the final flush on sits inside a `try:`
whose handler emits `Error saving recording`; an exception raised while
combining (a deleted chunk file, or `np.concatenate` of mismatched
dimensionalities) jumps there, skipping the cleanup pass.  Cleanup
(`os.remove` per chunk file, lines 200–209) is best-effort; it is modelled as
succeeding, leaving every entry of `chunk_files` a dangling path (`none`)
while the list itself is never cleared. -/

/-- The chunk-combining loop of `stop_recording` (lines 176–183): read each
chunk file in order and `np.concatenate` it onto the accumulator.  `.error`
is an exception: `sf.read` of a deleted file, or a `ValueError` from
`np.concatenate`. -/
def combineChunks : List (Option WavFile) → Option NpArr → Except Unit (Option NpArr)
  | [], acc => .ok acc
  | none :: _, _ => .error ()
  | some f :: rest, acc =>
    match acc with
    | none => combineChunks rest (some (sfReadArr f))
    | some c =>
      match npConcat2 c (sfReadArr f) with
      | none => .error ()
      | some c' => combineChunks rest (some c')

/-- What one `stop_recording` call produces. -/
structure StopOutcome where
  post : RecState
  finishedEmitted : Bool
  /-- The final waveform written to the fresh temporary file, if any. -/
  tempFile : Option WavFile
deriving Repr

/-- Mark every chunk file as removed (the cleanup pass, lines 200–209). -/
def cleanupChunks (st : RecState) : RecState :=
  { st with chunkFiles := st.chunkFiles.map fun _ => none }

/-- `RecordingThread.stop_recording` (lines 157–213).  `writeOk` is the fate
of the final `_save_current_chunk` write, when one happens. -/
def stopRecording (writeOk : Bool) (st : RecState) : StopOutcome :=
  if ¬st.hasStream then
    -- no `else` branch: without a stream attribute the call does nothing
    { post := st, finishedEmitted := false, tempFile := none }
  else
    let st := { st with recording := false, paused := false }
    let st := if st.currentChunk ≠ [] then saveCurrentChunk writeOk st else st
    if st.chunkFiles = [] then
      { post := { st with errors := st.errors ++ ["No audio recorded"] },
        finishedEmitted := false, tempFile := none }
    else
      match combineChunks st.chunkFiles none with
      | .error () =>
        { post := { st with errors := st.errors ++ ["Error saving recording"] },
          finishedEmitted := false, tempFile := none }
      | .ok combined =>
        match combined with
        | none =>
          { post := cleanupChunks
              { st with errors := st.errors ++ ["No audio recorded or recording too short"] },
            finishedEmitted := false, tempFile := none }
        | some c =>
          if 0 < npLen c then
            -- min_duration_samples = int(0.5 * sample_rate)
            let minDur := st.sampleRate / 2
            let padded : Option NpArr :=
              if npLen c < minDur then
                npConcat2 c (npZeros2 (minDur - npLen c) st.channels)
              else some c
            match padded with
            | none =>
              -- ValueError from np.concatenate → except handler; cleanup skipped
              { post := { st with errors := st.errors ++ ["Error saving recording"] },
                finishedEmitted := false, tempFile := none }
            | some d =>
              { post := cleanupChunks st, finishedEmitted := true,
                tempFile := some (sfWriteArr d) }
          else
            { post := cleanupChunks
                { st with errors := st.errors ++ ["No audio recorded or recording too short"] },
              finishedEmitted := false, tempFile := none }

/-! ## `transcribe` (lines 250–302)

The top-level gate: fail fast on a missing API key or a missing file, route
files over 23 MB to `_transcribe_large_file`, otherwise compress and issue a
single request.  `finished` is the payload of the `finished` signal, when
emitted (note that after `_transcribe_large_file` swallows its own exception
and returns `""`, line 295 still emits `finished("")`). -/

structure TranscribeEnv where
  apiKeySet : Bool
  fileExists : Bool
  /-- `os.path.getsize(audio_file_path) / (1024*1024)`. -/
  fileSizeMB : ℚ
  /-- Oracle for the `_compress_audio` call on the small-file path. -/
  compressEnv : CompressEnv
  /-- `sf.read` inside `_transcribe_large_file`: `none` = raises. -/
  largeRead : Option (Nat × Nat)
  /-- Per-request API outcome (request 0 is the single small-file request). -/
  reply : Nat → ReplyOutcome

structure TranscribeOutcome where
  errors : List String
  finished : Option String
  /-- Whether the small-file compression fell back to the original file. -/
  compressionUsedOriginal : Option Bool

/-- `TranscriptionThread.transcribe` (lines 250–302). -/
def transcribe (env : TranscribeEnv) : TranscribeOutcome :=
  if ¬env.apiKeySet then
    { errors := ["OpenAI API key is not set. Please set it in Settings > Set OpenAI API Key."],
      finished := none, compressionUsedOriginal := none }
  else if ¬env.fileExists then
    { errors := ["Audio file not found"], finished := none,
      compressionUsedOriginal := none }
  else if 23 < env.fileSizeMB then
    match env.largeRead with
    | none =>
      -- sf.read raised inside _transcribe_large_file: its handler emits the
      -- error and returns "", then line 295 emits finished("")
      { errors := ["Error processing large audio file"], finished := some "",
        compressionUsedOriginal := none }
    | some (n, sr) =>
      let res := transcribeLargeFile env.reply (numChunks n (chunkSizeSamples sr))
      { errors := if res.errorEmitted then ["Error processing large audio file"] else [],
        finished := some res.text, compressionUsedOriginal := none }
  else
    let comp := compressAudio env.compressEnv 15
    match env.reply 0 with
    | .ok t =>
      { errors := [], finished := some t,
        compressionUsedOriginal := some comp.usedOriginal }
    | .raise =>
      { errors := ["Error during transcription"], finished := none,
        compressionUsedOriginal := some comp.usedOriginal }

/-! # Theorems -/

/-! ## C6 — sample-rate negotiation fallback

The claim says a device for which no probed rate is confirmed usable gets the
default `16000`; line 104 returns `8000` ("the lowest as a last resort") in
that situation, and `16000` only when the device query itself raises
(line 107). -/

/-- C6 (counterexample): for a device whose query succeeds with no reported
default rate and which accepts none of the probed rates, the negotiation
returns `8000`, not the `16000` the claim requires. -/
theorem C6_counterexample :
    getSupportedSampleRate (some ⟨true, none⟩) (fun _ => false) = 8000 ∧
    (8000 : Int) ≠ 16000 := by
  constructor
  · rfl
  · decide

/-- C6 (amended): sample-rate negotiation returns the device's reported
default rate when the query succeeds with one present; otherwise it probes
48000, 44100, 16000, 8000 in order and returns the first accepted; if none is
confirmed usable it returns `8000` as a last resort; `16000` is returned only
when the device query itself raises. -/
theorem C6_amended (query : Option DeviceInfo) (accepts : Int → Bool) :
    (∀ info r, query = some info → info.truthy = true →
      info.defaultSamplerate = some r →
      getSupportedSampleRate query accepts = r) ∧
    (∀ info, query = some info → info.defaultSamplerate = none →
      getSupportedSampleRate query accepts = (commonRates.find? accepts).getD 8000) ∧
    (query = none → getSupportedSampleRate query accepts = 16000) := by
  refine ⟨?_, ?_, ?_⟩
  · rintro info r rfl htru hdef
    simp [getSupportedSampleRate, getSupportedSampleRateBody, htru, hdef]
  · rintro info rfl hdef
    simp only [getSupportedSampleRate, getSupportedSampleRateBody, hdef]
    simp only [Option.isSome_none, Bool.false_eq_true, and_false, if_false]
    cases h : commonRates.find? accepts <;> simp [h]
  · rintro rfl
    rfl

/-- C6 (witness): a device reporting default rate 44100 gets 44100. -/
theorem C6_amended_witness :
    getSupportedSampleRate (some ⟨true, some 44100⟩) (fun _ => true) = 44100 :=
  (C6_amended (some ⟨true, some 44100⟩) (fun _ => true)).1 ⟨true, some 44100⟩
    44100 rfl rfl rfl

/-! ## C10 — totality of sample-rate negotiation -/

/-- C10: negotiation always returns a rate that is the device's reported
default, a member of the probed list (8000, the last resort, is among them),
or the 16000 fallback; and the only exception the `try:` body ever propagates
is a raising device query, which the outer handler absorbs into 16000 — so no
exception escapes `get_supported_sample_rate`. -/
theorem C10_total (query : Option DeviceInfo) (accepts : Int → Bool) :
    ((∃ info, query = some info ∧
        info.defaultSamplerate = some (getSupportedSampleRate query accepts)) ∨
      getSupportedSampleRate query accepts ∈ commonRates ∨
      getSupportedSampleRate query accepts = 16000) ∧
    (∀ info, query = some info →
      getSupportedSampleRateBody query accepts =
        .ok (getSupportedSampleRate query accepts)) := by
  constructor
  · match query with
    | none => right; right; rfl
    | some info =>
      by_cases h : info.truthy = true ∧ info.defaultSamplerate.isSome = true
      · left
        refine ⟨info, rfl, ?_⟩
        obtain ⟨r, hr⟩ := Option.isSome_iff_exists.mp h.2
        simp [getSupportedSampleRate, getSupportedSampleRateBody, h.1, hr]
      · right
        have hbody : getSupportedSampleRate (some info) accepts =
            (commonRates.find? accepts).getD 8000 := by
          simp only [getSupportedSampleRate, getSupportedSampleRateBody]
          rw [if_neg (by simpa using h)]
          cases hf : commonRates.find? accepts <;> simp [hf]
        rw [hbody]
        cases hf : commonRates.find? accepts with
        | none => left; simp [hf]; decide
        | some r => left; simpa [hf] using List.mem_of_find?_eq_some hf
  · rintro info rfl
    simp only [getSupportedSampleRate, getSupportedSampleRateBody]
    split <;> [skip; cases commonRates.find? accepts] <;> rfl

/-- C10 (witness): a truthy query result without a default rate, with every
probe failing, still yields a normal return from the `try:` body. -/
theorem C10_total_witness :
    getSupportedSampleRateBody (some ⟨true, none⟩) (fun _ => false) =
      .ok (getSupportedSampleRate (some ⟨true, none⟩) (fun _ => false)) :=
  (C10_total (some ⟨true, none⟩) (fun _ => false)).2 ⟨true, none⟩ rfl

/-! ## C7 — compression failure is never fatal -/

/-- C7: whenever the encoder invocation raises (missing binary), or the
output file is missing or empty, `_compress_audio` returns the original
path; the `except` handler guarantees no exception reaches the caller. -/
theorem C7_never_fatal (env : CompressEnv) (target : ℚ)
    (h : env.encoderRuns = false ∨ env.outExists = false ∨ env.outSizeBytes = 0) :
    (compressAudio env target).usedOriginal = true := by
  by_cases hle : env.srcSizeMB ≤ target
  · simp [compressAudio, compressAudioBody, hle]
  · cases hr : env.readResult with
    | none => simp [compressAudio, compressAudioBody, hle, hr]
    | some p =>
      obtain ⟨n, sr⟩ := p
      by_cases hd : ((n : ℚ) / (sr : ℚ)) = 0
      · simp [compressAudio, compressAudioBody, hle, hr, hd]
      · rcases h with h | h | h <;>
          cases henc : env.encoderRuns <;>
            simp_all [compressAudio, compressAudioBody, hle, hr, hd] <;>
              rw [if_neg (not_le.mpr hle)]

/-- C7 (witness): a 20 MB file with a 15 MB target and a missing encoder
binary falls back to the original file. -/
theorem C7_never_fatal_witness :
    (compressAudio ⟨20, some (9600000, 16000), false, false, 0⟩ 15).usedOriginal
      = true :=
  C7_never_fatal ⟨20, some (9600000, 16000), false, false, 0⟩ 15 (Or.inl rfl)

/-! ## C8 — compression no-op condition and bitrate formula -/

/-- C8: with source size `S` MB, `n` samples at rate `sr` (duration
`n / sr` s) and target `M` MB: if `S ≤ M` the call is a no-op returning the
original path without touching the encoder; otherwise the encoder is invoked
with one output channel and a bitrate (kbps) equal to the target size in bits
divided by the duration (then expressed in kbps), clamped into `[32, 128]`. -/
theorem C8_bitrate (env : CompressEnv) (M : ℚ) (n sr : Nat)
    (hread : env.readResult = some (n, sr)) (hn : 0 < n) (hsr : 0 < sr) :
    (env.srcSizeMB ≤ M →
      compressAudio env M = { usedOriginal := true, invoked := none }) ∧
    (M < env.srcSizeMB →
      (compressAudio env M).invoked =
        some (max 32 (min 128
          (pyInt ((M * 8 * 1024 * 1024 / ((n : ℚ) / (sr : ℚ))) / 1024))), 1) ∧
      32 ≤ (max 32 (min 128
          (pyInt ((M * 8 * 1024 * 1024 / ((n : ℚ) / (sr : ℚ))) / 1024)))) ∧
      (max 32 (min 128
          (pyInt ((M * 8 * 1024 * 1024 / ((n : ℚ) / (sr : ℚ))) / 1024)))) ≤ 128) := by
  have hdur : ((n : ℚ) / (sr : ℚ)) ≠ 0 := by
    positivity
  have hform : (M * 8 * 1024 * 1024 / ((n : ℚ) / (sr : ℚ))) / 1024 =
      (M * 8 * 1024) / ((n : ℚ) / (sr : ℚ)) := by
    field_simp
    ring
  constructor
  · intro hle
    unfold compressAudio compressAudioBody
    rw [if_pos hle]
  · intro hgt
    have hmain : (compressAudio env M).invoked =
        some (max 32 (min 128 (pyInt ((M * 8 * 1024) / ((n : ℚ) / (sr : ℚ))))), 1) := by
      have hgt' : ¬ env.srcSizeMB ≤ M := not_le.mpr hgt
      cases henc : env.encoderRuns <;>
        by_cases hout : env.outExists = true ∧ 0 < env.outSizeBytes <;>
          simp [compressAudio, compressAudioBody, hgt', hread, hdur, henc, hout]
    refine ⟨?_, le_max_left _ _, max_le (by norm_num) (min_le_left _ _)⟩
    rw [hmain, hform]

/-- C8 (witness): Scenario D numbers — 20 MB source, 15 MB target, 600 s of
audio (9 600 000 samples at 16 kHz): the raw bitrate 204 kbps is clamped to
128 kbps, mono. -/
theorem C8_bitrate_witness :
    (compressAudio ⟨20, some (9600000, 16000), true, true, 1000⟩ 15).invoked =
      some (128, 1) := by
  have h := (C8_bitrate ⟨20, some (9600000, 16000), true, true, 1000⟩ 15
    9600000 16000 rfl (by norm_num) (by norm_num)).2 (by norm_num)
  rw [h.1]
  norm_num [pyInt]

/-! ## C2 — the segment plan of `_transcribe_large_file`

Coverage and the size of the last segment hold; the padding conjunct does
not: lines 374–387 of `whisper_notepad_simple.py` write each slice to its
segment file as-is, with no minimum-duration check (the 0.5 s silence-padding
of short transcription segments exists only in `v1/voice_notepad.py`,
lines 316–322). -/

/-- Size of a mono WAV file holding `n` frames of `c` channels each. -/
theorem wavFileSizeMB_replicate (c n : Nat) (r : List ℚ) :
    wavFileSizeMB ⟨c, List.replicate n r⟩ =
      ((44 + 2 * c * n : Nat) : ℚ) / (1024 * 1024) := by
  unfold wavFileSizeMB
  rw [List.length_replicate]

/-- Peeling the first segment off the plan. -/
theorem segmentPlan_cons {α : Type} (data : List α) (cs : Nat) (hcs : 0 < cs)
    (hne : data ≠ []) :
    segmentPlan data cs = data.take cs :: segmentPlan (data.drop cs) cs := by
  have hlen : 0 < data.length := List.length_pos.mpr hne
  have hstep : numChunks data.length cs = numChunks (data.length - cs) cs + 1 := by
    unfold numChunks
    rcases le_or_lt data.length cs with hle | hlt
    · have h1 : (data.length + cs - 1) / cs = 1 := by
        apply Nat.div_eq_of_lt_le <;> omega
      have h2 : (data.length - cs + cs - 1) / cs = 0 := by
        apply Nat.div_eq_of_lt; omega
      omega
    · have h3 : data.length + cs - 1 = (data.length - cs + cs - 1) + cs := by omega
      rw [h3, Nat.add_div_right _ hcs]
  unfold segmentPlan
  rw [List.length_drop, hstep, List.range_succ_eq_map]
  simp only [List.map_cons, Nat.zero_mul, List.drop_zero, List.map_map]
  congr 1
  apply List.map_congr_left
  intro i _
  simp only [Function.comp_apply]
  rw [List.drop_drop]
  congr 2
  rw [Nat.succ_mul]
  ring

/-- The plan of an empty array is empty. -/
theorem segmentPlan_nil {α : Type} (cs : Nat) (hcs : 0 < cs) :
    segmentPlan ([] : List α) cs = [] := by
  unfold segmentPlan numChunks
  simp only [List.length_nil]
  rw [Nat.div_eq_of_lt (by omega)]
  rfl

/-- The plan of a nonempty array is nonempty. -/
theorem segmentPlan_ne_nil {α : Type} (data : List α) (cs : Nat) (hcs : 0 < cs)
    (hne : data ≠ []) : segmentPlan data cs ≠ [] := by
  rw [segmentPlan_cons data cs hcs hne]
  exact List.cons_ne_nil _ _

/-- Concatenating the segments of the plan reproduces the array. -/
theorem segmentPlan_flatten {α : Type} (cs : Nat) (hcs : 0 < cs)
    (data : List α) : (segmentPlan data cs).flatten = data := by
  suffices H : ∀ n (data : List α), data.length = n →
      (segmentPlan data cs).flatten = data by exact H _ data rfl
  intro n
  induction n using Nat.strong_induction_on with
  | _ n ih =>
    intro data hn
    rcases eq_or_ne data [] with rfl | hne
    · rw [segmentPlan_nil cs hcs]; rfl
    · have hlen : 0 < data.length := List.length_pos.mpr hne
      rw [segmentPlan_cons data cs hcs hne, List.flatten_cons,
        ih (data.drop cs).length (by subst hn; simp; omega) _ rfl,
        List.take_append_drop]

/-- C2 (counterexample): a mono waveform of 14 400 001 samples at 16 kHz is a
≈27.5 MB WAV file, above the 23 MB ceiling; the plan built for it
(`chunk_size = 5·60·16000 = 4 800 000`) has a last segment of a single
sample — far below the 8000-sample (0.5 s) floor — and that one-sample slice,
not a padded one, is what gets written and transcribed, so the claim's
padding conjunct is false. -/
theorem C2_counterexample :
    23 < wavFileSizeMB ⟨1, List.replicate 14400001 [0]⟩ ∧
    (∃ s ∈ segmentPlan (List.replicate 14400001 (0 : ℚ)) (chunkSizeSamples 16000),
      s.length = 1) ∧
    1 < 16000 / 2 := by
  refine ⟨?_, ?_, by norm_num⟩
  · rw [wavFileSizeMB_replicate]
    norm_num
  · refine ⟨((List.replicate 14400001 (0 : ℚ)).drop
      (3 * chunkSizeSamples 16000)).take (chunkSizeSamples 16000), ?_, ?_⟩
    · unfold segmentPlan
      apply List.mem_map.mpr
      refine ⟨3, List.mem_range.mpr ?_, rfl⟩
      rw [List.length_replicate]
      decide
    · rw [List.length_take, List.length_drop, List.length_replicate]
      decide

/-- C2 (amended): for a nonempty sample array and positive segment size, the
plan covers the array with no gaps and no overlaps (concatenating the
segments in order reproduces the array), every segment but the last has
exactly the fixed segment length, and the last segment's length lies in
`(0, chunk_size]`.  Segments shorter than the 0.5 s floor are written
unpadded by this implementation (only the v1 implementation pads them). -/
theorem C2_amended {α : Type} (data : List α) (cs : Nat) (hcs : 0 < cs)
    (hne : data ≠ []) :
    (segmentPlan data cs).flatten = data ∧
    (∀ s ∈ (segmentPlan data cs).dropLast, s.length = cs) ∧
    (∃ last, (segmentPlan data cs).getLast? = some last ∧
      0 < last.length ∧ last.length ≤ cs) := by
  refine ⟨segmentPlan_flatten cs hcs data, ?_, ?_⟩
  · suffices H : ∀ n (data : List α), data.length = n → data ≠ [] →
        ∀ s ∈ (segmentPlan data cs).dropLast, s.length = cs by
      exact H _ data rfl hne
    intro n
    induction n using Nat.strong_induction_on with
    | _ n ih =>
      intro data hn hne
      rw [segmentPlan_cons data cs hcs hne]
      rcases eq_or_ne (data.drop cs) [] with hnil | hne'
      · rw [hnil, segmentPlan_nil cs hcs]
        intro s hs
        simp at hs
      · intro s hs
        rw [List.dropLast_cons_of_ne_nil (segmentPlan_ne_nil _ cs hcs hne')] at hs
        rcases List.mem_cons.mp hs with rfl | hs
        · have hlt : cs < data.length := by
            by_contra hle
            exact hne' (List.drop_eq_nil_of_le (by omega))
          simp [List.length_take]
          omega
        · have hlen : 0 < data.length := List.length_pos.mpr hne
          exact ih (data.drop cs).length (by subst hn; simp; omega) _ rfl hne' s hs
  · suffices H : ∀ n (data : List α), data.length = n → data ≠ [] →
        ∃ last, (segmentPlan data cs).getLast? = some last ∧
          0 < last.length ∧ last.length ≤ cs by
      exact H _ data rfl hne
    intro n
    induction n using Nat.strong_induction_on with
    | _ n ih =>
      intro data hn hne
      rcases eq_or_ne (data.drop cs) [] with hnil | hne'
      · rw [segmentPlan_cons data cs hcs hne, hnil, segmentPlan_nil cs hcs]
        have hlen : 0 < data.length := List.length_pos.mpr hne
        have hle : data.length ≤ cs := by
          by_contra hlt
          have hpos : 0 < (data.drop cs).length := by
            simp
            omega
          exact (List.ne_nil_of_length_pos hpos) hnil
        refine ⟨data.take cs, by simp, ?_, ?_⟩
        · simp [List.length_take]
          omega
        · simp [List.length_take]
      · have hlen : 0 < data.length := List.length_pos.mpr hne
        obtain ⟨last, hl, h0, hcs'⟩ :=
          ih (data.drop cs).length (by subst hn; simp; omega) _ rfl hne'
        refine ⟨last, ?_, h0, hcs'⟩
        rw [segmentPlan_cons data cs hcs hne]
        obtain ⟨x, xs, hx⟩ :=
          List.exists_cons_of_ne_nil (segmentPlan_ne_nil _ cs hcs hne')
        rw [hx, List.getLast?_cons_cons, ← hx, hl]

/-- C2 (witness): the plan for a 3-sample array with 2-sample segments covers
the array. -/
theorem C2_amended_witness :
    (segmentPlan [(1 : ℚ), 2, 3] 2).flatten = [(1 : ℚ), 2, 3] :=
  (C2_amended [(1 : ℚ), 2, 3] 2 (by norm_num) (by simp)).1

/-! ## C3 — sequential requests, order-preserving space-joined transcript -/

/-- Closed form of the loop when every reply arrives: the trace alternates
request `i`, response `i` strictly in index order — the request for a segment
is only issued after the previous segment's response is recorded — and the
accumulated text is the space-join of the replies in that order. -/
theorem largeFileGo_all_ok (texts : Nat → String) :
    ∀ (k i : Nat) (evs : List ApiEvent) (txts : List String),
      largeFileGo (fun j => .ok (texts j)) k i evs txts =
        { events := evs ++ ((List.range' i k).map fun j =>
            [ApiEvent.request j, ApiEvent.response j (texts j)]).flatten,
          errorEmitted := false,
          text := String.intercalate " " (txts ++ (List.range' i k).map texts) } := by
  intro k
  induction k with
  | zero =>
    intro i evs txts
    simp [largeFileGo, List.range']
  | succ k ih =>
    intro i evs txts
    simp only [largeFileGo]
    rw [ih]
    simp [List.range', List.append_assoc]

/-- C3: for a plan of `n ≥ 1` segments whose replies all arrive, the API
trace is exactly request 0, response 0, request 1, response 1, …: requests
are issued sequentially in segment order, each after the previous reply; and
the final transcript is the space-join of the reply texts in segment order. -/
theorem C3_sequential_join (n : Nat) (_hn : 1 ≤ n) (texts : Nat → String) :
    (transcribeLargeFile (fun i => .ok (texts i)) n).events =
      ((List.range n).map fun i =>
        [ApiEvent.request i, ApiEvent.response i (texts i)]).flatten ∧
    (transcribeLargeFile (fun i => .ok (texts i)) n).text =
      String.intercalate " " ((List.range n).map texts) ∧
    (transcribeLargeFile (fun i => .ok (texts i)) n).errorEmitted = false := by
  unfold transcribeLargeFile
  rw [largeFileGo_all_ok texts n 0 [] []]
  refine ⟨?_, ?_, rfl⟩ <;> simp [List.range_eq_range']

/-- C3 (witness): two segments replying "foo" and "bar" yield "foo bar". -/
theorem C3_sequential_join_witness :
    (transcribeLargeFile (fun i => .ok (if i = 0 then "foo" else "bar")) 2).text
      = "foo bar" := by
  have h := (C3_sequential_join 2 (by norm_num)
    (fun i => if i = 0 then "foo" else "bar")).2.1
  rw [h]
  rfl

/-! ## C4 — empty replies are not errors; exceptions abort with no partial text

Lines 393–401 append `response.text` unconditionally: an empty reply text is
included verbatim, with no check and no error (the v1 implementation even
silently skips such segments, `voice_notepad.py` lines 336–338).  Only an
exception aborts, and then the whole loop's accumulated text is discarded. -/

/-- C4 (counterexample): with segment 1's reply empty, the loop finishes with
no error and returns `"hello "` — an empty reply is accepted, not a hard
error as the claim requires. -/
theorem C4_counterexample :
    (transcribeLargeFile (fun i => .ok (if i = 0 then "hello" else "")) 2).errorEmitted
        = false ∧
    (transcribeLargeFile (fun i => .ok (if i = 0 then "hello" else "")) 2).text
        = "hello " ∧
    (fun i => ReplyOutcome.ok (if i = 0 then "hello" else "")) 1 = .ok "" := by
  exact ⟨rfl, rfl, rfl⟩

/-- A raising segment aborts the loop: the error flag is set and the returned
text is `""`, whatever was already accumulated. -/
theorem largeFileGo_raise (reply : Nat → ReplyOutcome) :
    ∀ (f i : Nat) (evs : List ApiEvent) (txts : List String) (k : Nat),
      i ≤ k → k < i + f → reply k = .raise →
      (∀ j, i ≤ j → j < k → reply j ≠ .raise) →
      (largeFileGo reply f i evs txts).errorEmitted = true ∧
      (largeFileGo reply f i evs txts).text = "" := by
  intro f
  induction f with
  | zero =>
    intro i evs txts k h1 h2 _ _
    omega
  | succ f ih =>
    intro i evs txts k h1 h2 hraise hfirst
    rcases eq_or_ne i k with rfl | hne
    · simp [largeFileGo, hraise]
    · have hlt : i < k := by omega
      cases hri : reply i with
      | raise => exact absurd hri (hfirst i le_rfl hlt)
      | ok t =>
        simp only [largeFileGo]
        rw [hri]
        exact ih (i + 1) _ _ k (by omega) (by omega) hraise
          (fun j hj1 hj2 => hfirst j (by omega) hj2)

/-- C4 (amended): an exception on any segment (a malformed reply, a network
failure) is a hard error aborting the entire multi-segment operation: the
error is emitted and the returned transcript is `""`, never a transcript
covering only some segments.  An **empty** reply text, however, is not an
error: it is appended verbatim to the joined transcript. -/
theorem C4_abort_no_partial (n k : Nat) (reply : Nat → ReplyOutcome)
    (hk : k < n) (hraise : reply k = .raise)
    (hfirst : ∀ j, j < k → reply j ≠ .raise) :
    (transcribeLargeFile reply n).errorEmitted = true ∧
    (transcribeLargeFile reply n).text = "" := by
  unfold transcribeLargeFile
  exact largeFileGo_raise reply n 0 [] [] k (by omega) (by omega) hraise
    (fun j _ hj => hfirst j hj)

/-- C4 (witness): segment 0 replies "hello", segment 1 raises — the whole
operation errors out and returns `""`, not `"hello"`. -/
theorem C4_abort_no_partial_witness :
    (transcribeLargeFile
        (fun i => if i = 0 then ReplyOutcome.ok "hello" else .raise) 2).errorEmitted
        = true ∧
    (transcribeLargeFile
        (fun i => if i = 0 then ReplyOutcome.ok "hello" else .raise) 2).text
        = "" :=
  C4_abort_no_partial 2 1 _ (by norm_num) rfl (fun j hj => by
    have hj0 : j = 0 := by omega
    subst hj0
    simp)

/-! ## C5 — chunk flush

The write does happen before the accumulator is cleared, a failed write
leaves the accumulator (and hence the audio) intact, and concatenation is
lossless.  But a failed write does **not** abort the recording and raises no
explicit error condition: lines 235–236 `print` the exception and return, the
`recording` flag stays set and the `error` signal is never emitted. -/

/-- A flush (successful or failed) moves rows between the accumulator and the
chunk files but never changes the multiset, order included. -/
theorem storedRows_saveCurrentChunk (writeOk : Bool) (st : RecState) :
    storedRows (saveCurrentChunk writeOk st) = storedRows st := by
  unfold saveCurrentChunk storedRows
  split
  · rfl
  · split
    · simp [sfWriteArr]
    · rfl

/-- One session step preserves every stored row and appends exactly the rows
captured in that step. -/
theorem storedRows_stepRec (st : RecState) (e : RecEvent) :
    storedRows (stepRec st e) = storedRows st ++ (capturedStep st e).flatten := by
  cases e with
  | pause => simp [stepRec, capturedStep, storedRows]
  | resume => simp [stepRec, capturedStep, storedRows]
  | frames batch writeOk =>
    by_cases h : st.recording = true ∧ ¬st.paused = true
    · simp only [stepRec, audioCallback, capturedStep, if_pos h]
      have happ : storedRows { st with currentChunk := st.currentChunk ++ [batch] } =
          storedRows st ++ batch := by
        simp [storedRows, List.flatten_append]
      split
      · rw [storedRows_saveCurrentChunk, happ]
        simp
      · rw [happ]
        simp
    · simp only [stepRec, audioCallback, capturedStep]
      rw [if_neg h, if_neg h]
      simp

/-- What the callback does when the flush threshold is reached and the chunk
write fails: it appends the batch, prints, and changes nothing else. -/
theorem audioCallback_flush_failed (st : RecState) (batch : List (List ℚ))
    (h1 : st.recording = true ∧ ¬st.paused = true)
    (h2 : 60 ≤ (((st.currentChunk ++ [batch]).length * batch.length : Nat) : ℚ) /
      (st.sampleRate : ℚ))
    (h3 : ¬(st.currentChunk ++ [batch] = [])) :
    audioCallback false batch st =
      { st with currentChunk := st.currentChunk ++ [batch],
                console := st.console ++ ["Error saving chunk"] } := by
  unfold audioCallback saveCurrentChunk
  dsimp only
  rw [if_pos h1, if_pos h2, if_neg h3, if_neg (by simp)]

/-- C5 (counterexample): a failed chunk-file write does not abort the
recording and raises no explicit error condition.  Concretely: the callback
receives a 120-frame batch at a 2 Hz session rate (the logic is
rate-independent; a small rate keeps the state small), the accumulated
duration 120/2 = 60 s triggers the flush, and the write fails — afterwards
`recording` is still set, no `error` signal was emitted, the chunk list is
unchanged and the accumulator still holds every captured frame; the only
trace is a console print. -/
theorem C5_counterexample :
    (audioCallback false (List.replicate 120 [0])
      { sampleRate := 2, channels := 1, hasStream := true, recording := true,
        paused := false, currentChunk := [], chunkFiles := [],
        errors := [], console := [] }).recording = true ∧
    (audioCallback false (List.replicate 120 [0])
      { sampleRate := 2, channels := 1, hasStream := true, recording := true,
        paused := false, currentChunk := [], chunkFiles := [],
        errors := [], console := [] }).errors = [] ∧
    (audioCallback false (List.replicate 120 [0])
      { sampleRate := 2, channels := 1, hasStream := true, recording := true,
        paused := false, currentChunk := [], chunkFiles := [],
        errors := [], console := [] }).currentChunk = [List.replicate 120 [0]] ∧
    (audioCallback false (List.replicate 120 [0])
      { sampleRate := 2, channels := 1, hasStream := true, recording := true,
        paused := false, currentChunk := [], chunkFiles := [],
        errors := [], console := [] }).console = ["Error saving chunk"] := by
  have h := audioCallback_flush_failed
    { sampleRate := 2, channels := 1, hasStream := true, recording := true,
      paused := false, currentChunk := [], chunkFiles := [],
      errors := [], console := [] }
    (List.replicate 120 [0]) (by simp)
    (by
      rw [List.length_append, List.length_replicate]
      norm_num)
    (by simp)
  rw [h]
  exact ⟨rfl, rfl, rfl, rfl⟩

/-- C5 (amended): chunk flushing never loses frames — along any sequence of
captured batches, pause/resume calls and flush outcomes, the rows stored in
flushed chunk files (in sequence order) followed by the trailing accumulator
equal the initially stored rows followed by every captured batch's rows in
arrival order, bit for bit.  A successful flush appends the file holding
exactly the pre-clear accumulator contents and only then clears the
accumulator; a failed flush leaves the accumulator, the chunk list, the
`recording` flag and the emitted-error list unchanged (the failure only
`print`s — the claim's "aborts the whole recording with an explicit error
condition" does not hold, see the counterexample). -/
theorem C5_flush_lossless :
    (∀ (st : RecState) (evs : List RecEvent),
      storedRows (runRec st evs) = storedRows st ++ (capturedRun st evs).flatten) ∧
    (∀ st : RecState, st.currentChunk ≠ [] →
      saveCurrentChunk true st =
        { st with
          chunkFiles := st.chunkFiles ++
            [some (sfWriteArr (.two st.currentChunk.flatten))],
          currentChunk := [] }) ∧
    (∀ st : RecState,
      (saveCurrentChunk false st).currentChunk = st.currentChunk ∧
      (saveCurrentChunk false st).chunkFiles = st.chunkFiles ∧
      (saveCurrentChunk false st).recording = st.recording ∧
      (saveCurrentChunk false st).errors = st.errors) := by
  refine ⟨?_, ?_, ?_⟩
  · intro st evs
    induction evs generalizing st with
    | nil => simp [runRec, capturedRun]
    | cons e es ih =>
      rw [runRec, capturedRun, ih (stepRec st e), storedRows_stepRec]
      simp [List.flatten_append, List.append_assoc]
  · intro st h
    unfold saveCurrentChunk
    rw [if_neg h, if_pos rfl]
  · intro st
    unfold saveCurrentChunk
    split
    · exact ⟨rfl, rfl, rfl, rfl⟩
    · exact ⟨rfl, rfl, rfl, rfl⟩

/-- C5 (witness): a one-batch accumulator flushed successfully lands in a new
chunk file and the accumulator is cleared. -/
theorem C5_flush_lossless_witness :
    saveCurrentChunk true
      { sampleRate := 16000, channels := 1, hasStream := true, recording := true,
        paused := false, currentChunk := [[[1]]], chunkFiles := [],
        errors := [], console := [] } =
      { sampleRate := 16000, channels := 1, hasStream := true, recording := true,
        paused := false, currentChunk := [],
        chunkFiles := [some (sfWriteArr (.two ([[[1]]] : List (List (List ℚ))).flatten))],
        errors := [], console := [] } := by
  have h := C5_flush_lossless.2.1
    { sampleRate := 16000, channels := 1, hasStream := true, recording := true,
      paused := false, currentChunk := [[[1]]], chunkFiles := [],
      errors := [], console := [] } (by simp)
  simpa using h

/-! ## C1 — final-waveform assembly and the 0.5 s floor

The app always constructs `RecordingThread(device_id)` with the default
`channels=1` (line 1015), so every chunk file is mono and `sf.read` returns a
1-D array; the combined data at line 186 is therefore 1-D.  On the padding
path (lines 189–192) the code builds `np.zeros((missing, self.channels))` — a
**2-D** array — and `np.concatenate` of a 1-D with a 2-D array raises
`ValueError`, which the handler at line 212 turns into the error signal
`Error saving recording`: the short recording is rejected, not padded.  The
code plainly intends to pad ("Pad with silence if needed", line 190; the v1
large-file path pads correctly with 1-D zeros, `voice_notepad.py` line 321),
so this is a slip in the code, not in the claim. -/

/-- Reading back a single flushed mono chunk of `n` frames. -/
theorem combineChunks_single_mono (n : Nat) :
    combineChunks [some ⟨1, List.replicate n ([0] : List ℚ)⟩] none =
      .ok (some (.one (List.replicate n 0))) := by
  simp [combineChunks, sfReadArr, List.map_replicate]

/-- `stop_recording` on a session holding one flushed mono chunk shorter than
the 0.5 s floor: the dimension mismatch in the padding path raises, the
`except` handler emits `Error saving recording`, no waveform is written and
`finished` is never emitted. -/
theorem stopRecording_single_mono_short (sr n : Nat) (writeOk : Bool)
    (errors console : List String) (hn : 0 < n) (hlt : n < sr / 2) :
    stopRecording writeOk
      { sampleRate := sr, channels := 1, hasStream := true, recording := true,
        paused := false, currentChunk := [],
        chunkFiles := [some ⟨1, List.replicate n [0]⟩],
        errors := errors, console := console } =
      { post :=
          { sampleRate := sr, channels := 1, hasStream := true,
            recording := false, paused := false, currentChunk := [],
            chunkFiles := [some ⟨1, List.replicate n [0]⟩],
            errors := errors ++ ["Error saving recording"], console := console },
        finishedEmitted := false, tempFile := none } := by
  unfold stopRecording
  rw [if_neg (by simp)]
  dsimp only
  rw [if_neg (by simp), if_neg (by simp), combineChunks_single_mono n]
  dsimp only [npLen]
  rw [List.length_replicate, if_pos hn, if_pos hlt]
  dsimp only [npZeros2, npConcat2]

/-- `stop_recording` on a session holding one flushed mono chunk at least as
long as the 0.5 s floor: the combined data is written unchanged, `finished`
is emitted and the chunk files are cleaned up. -/
theorem stopRecording_single_mono_ok (sr n : Nat) (writeOk : Bool)
    (errors console : List String) (hn : 0 < n) (hge : ¬ n < sr / 2) :
    stopRecording writeOk
      { sampleRate := sr, channels := 1, hasStream := true, recording := true,
        paused := false, currentChunk := [],
        chunkFiles := [some ⟨1, List.replicate n [0]⟩],
        errors := errors, console := console } =
      { post :=
          { sampleRate := sr, channels := 1, hasStream := true,
            recording := false, paused := false, currentChunk := [],
            chunkFiles := [none], errors := errors, console := console },
        finishedEmitted := true,
        tempFile := some (sfWriteArr (.one (List.replicate n 0))) } := by
  unfold stopRecording
  rw [if_neg (by simp)]
  dsimp only
  rw [if_neg (by simp), if_neg (by simp), combineChunks_single_mono n]
  dsimp only [npLen]
  rw [List.length_replicate, if_pos hn, if_neg hge]
  dsimp only [cleanupChunks]
  simp

/-- C1 (code-bug evaluation): a mono session at 16 kHz stopped with one
flushed chunk of 3200 samples (0.2 s, below the 8000-sample floor): instead
of a waveform padded with 4800 trailing zeros, `stop_recording` emits
`Error saving recording` and writes nothing — the captured audio is
rejected. -/
theorem C1_short_recording_rejected :
    stopRecording true
      { sampleRate := 16000, channels := 1, hasStream := true, recording := true,
        paused := false, currentChunk := [],
        chunkFiles := [some ⟨1, List.replicate 3200 [0]⟩],
        errors := [], console := [] } =
      { post :=
          { sampleRate := 16000, channels := 1, hasStream := true,
            recording := false, paused := false, currentChunk := [],
            chunkFiles := [some ⟨1, List.replicate 3200 [0]⟩],
            errors := ["Error saving recording"], console := [] },
        finishedEmitted := false, tempFile := none } := by
  have h := stopRecording_single_mono_short 16000 3200 true [] []
    (by norm_num) (by norm_num)
  rw [List.nil_append] at h
  exact h

/-! ## C9 — stopping twice, transcribing a missing file

Modelling note: `stream.stop()`/`close()` are calls into the audio device
boundary, which per spec §6 is an opaque external interface; they are
modelled as returning normally.  Everything the repository itself does in a
second `stop_recording` call sits inside the `try:` of lines 165–213 — after
a successful first stop every path through the chunk list (left populated
with deleted paths) or the empty-chunk branch ends in exactly one emitted
error; the missing-file check in `transcribe` (lines 259–261) likewise
returns with one emitted error. -/

/-- Reading any deleted chunk file raises, aborting the combining loop. -/
theorem combineChunks_error_of_deleted (files : List (Option WavFile))
    (acc : Option NpArr) (hne : files ≠ []) (hall : ∀ f ∈ files, f = none) :
    combineChunks files acc = .error () := by
  cases files with
  | nil => exact absurd rfl hne
  | cons f rest =>
    have hf : f = none := hall f (List.mem_cons_self f rest)
    subst hf
    rfl

/-- C9: (a) calling `stop_recording` on a state a successful stop leaves
behind (stream attribute still set, empty accumulator, chunk list populated
only with deleted paths) emits exactly one error and does not emit
`finished` — a well-defined error, not an unhandled exception; the same
holds when the chunk list is empty.  (b) `transcribe` on a missing file
emits exactly the `Audio file not found` error and no transcript. -/
theorem C9_stop_twice_and_missing_file :
    (∀ (st : RecState) (writeOk : Bool),
      st.hasStream = true → st.currentChunk = [] →
      (∀ f ∈ st.chunkFiles, f = none) →
      (stopRecording writeOk st).finishedEmitted = false ∧
      (stopRecording writeOk st).post.errors.length = st.errors.length + 1) ∧
    (∀ env : TranscribeEnv, env.apiKeySet = true → env.fileExists = false →
      (transcribe env).errors = ["Audio file not found"] ∧
      (transcribe env).finished = none) := by
  constructor
  · intro st writeOk h1 h2 h3
    unfold stopRecording
    rw [if_neg (by simp [h1])]
    by_cases hcf : st.chunkFiles = []
    · simp [h2, hcf]
    · have hcomb := combineChunks_error_of_deleted st.chunkFiles none hcf h3
      simp [h2, hcf, hcomb]
  · intro env h1 h2
    unfold transcribe
    rw [if_neg (by simp [h1]), if_pos (by simp [h2])]
    exact ⟨rfl, rfl⟩

/-- C9 (witness): a concrete double stop — a healthy 0.5 s mono recording is
stopped successfully, then stopped again: the second call emits exactly one
error and no `finished`; and a concrete `transcribe` call on a missing file
yields exactly the file-not-found error. -/
theorem C9_stop_twice_and_missing_file_witness :
    ((stopRecording true ((stopRecording true
        { sampleRate := 16000, channels := 1, hasStream := true,
          recording := true, paused := false, currentChunk := [],
          chunkFiles := [some ⟨1, List.replicate 8000 [0]⟩],
          errors := [], console := [] }).post)).finishedEmitted = false ∧
      (stopRecording true ((stopRecording true
        { sampleRate := 16000, channels := 1, hasStream := true,
          recording := true, paused := false, currentChunk := [],
          chunkFiles := [some ⟨1, List.replicate 8000 [0]⟩],
          errors := [], console := [] }).post)).post.errors.length = 1) ∧
    (transcribe
        { apiKeySet := true, fileExists := false, fileSizeMB := 1,
          compressEnv := ⟨1, none, false, false, 0⟩, largeRead := none,
          reply := fun _ => .raise }).errors = ["Audio file not found"] := by
  constructor
  · have h1 := stopRecording_single_mono_ok 16000 8000 true [] []
      (by norm_num) (by norm_num)
    rw [h1]
    dsimp only
    have h2 := C9_stop_twice_and_missing_file.1
      { sampleRate := 16000, channels := 1, hasStream := true,
        recording := false, paused := false, currentChunk := [],
        chunkFiles := [none], errors := [], console := [] } true
      rfl rfl (by intro f hf; simpa using hf)
    exact ⟨h2.1, by rw [h2.2]; rfl⟩
  · exact (C9_stop_twice_and_missing_file.2 _ rfl rfl).1

end WhisperNotepad
